import Mathlib

/-!
# RecipeBookManager — verification of the domain store and its query helpers

Shallow embedding of the RecipeBookManager domain logic:

* the entity shapes of `src/models/types.ts` (`Book`, `Recipe`, `Collection`);
* the in-memory store of `src/contexts/AppContext.tsx` (initial data and the
  CRUD operations `addBook`, `updateBook`, `deleteBook`, `addRecipe`,
  `updateRecipe`, `deleteRecipe`, `toggleFavorite`, `addTag`,
  `addCollection`, `updateCollection`, `deleteCollection`,
  `suggestBookCategory`);
* the derived query helpers of the screens (`filteredBooks` in
  `BooksScreen`, `filteredRecipes` in `RecipesScreen`, `filteredRecipes` in
  `CollectionDetailScreen`).

Modelling conventions:

* The provider state (`books`, `recipes`, `tags`, `collections`) is a single
  `AppState` record.  Each store operation is an event handler that runs to
  completion between two renders; it is modelled as a function
  `AppState → AppState` sending the snapshot of the render in which the
  handler was created to the snapshot obtained once React has applied, in
  order, the functional updaters (`setX (prev => ...)`) that the handler
  enqueued.  Closure variables read by a handler (such as `tags` inside
  `addRecipe`) denote the current render snapshot, i.e. the corresponding
  field of the input state.
* React does **not** run a functional updater during the handler itself: the
  updaters are queued and executed at the next render, after the handler has
  returned.  (The only situation in which React evaluates an updater eagerly
  is the first state update of a handler when the fiber has no pending lanes,
  and in `deleteBook` the `setRecipes` call is preceded by a `setBooks`
  call, so its updater is never evaluated eagerly.)  Consequently a local
  variable that an updater mutates still holds its initial value when the
  handler executes `return`.  This matters for the return value of
  `deleteBook` and is modelled explicitly there.
* JavaScript strings are Lean `String`s.  `toLowerCase` and `includes` are
  modelled by `jsToLower` and `jsIncludes` below; `jsToLower` covers the
  ASCII and Latin-1 letters, which include every character occurring in this
  code base.  TypeScript optional fields are `Option`s; the JavaScript
  truthiness test `book.pseudonym && ...` is modelled by treating both
  `none` and `some ""` as falsy.
* The confidence values of `suggestBookCategory` are the literals 0.4, 0.5,
  0.7, 0.9; they are represented in hundredths (40, 50, 70, 90 : Nat), which
  preserves their relative order, the only thing the comparator
  `(a, b) => b.confidence - a.confidence` observes.
-/

/-! ## JavaScript string primitives -/

/-- Model of `String.prototype.toLowerCase` on one character, for the ASCII
range and the Latin-1 supplement (`À`–`Þ` except `×` map to `à`–`þ`).  Every
string manipulated by the application is covered by these two ranges. -/
def jsCharToLower (c : Char) : Char :=
  if 65 ≤ c.toNat ∧ c.toNat ≤ 90 then Char.ofNat (c.toNat + 32)
  else if 192 ≤ c.toNat ∧ c.toNat ≤ 222 ∧ c.toNat ≠ 215 then Char.ofNat (c.toNat + 32)
  else c

/-- Model of `String.prototype.toLowerCase`. -/
def jsToLower (s : String) : String :=
  ⟨s.data.map jsCharToLower⟩

/-- `startsWith sub l` holds when the character list `sub` is an initial
segment of `l`. -/
def startsWith : List Char → List Char → Bool
  | [], _ => true
  | _ :: _, [] => false
  | a :: as, b :: bs => a == b && startsWith as bs

/-- `containsChars sub l` holds when `sub` occurs contiguously in `l`. -/
def containsChars (sub : List Char) : List Char → Bool
  | [] => startsWith sub []
  | c :: t => startsWith sub (c :: t) || containsChars sub t

/-- Model of `s.includes(sub)` on JavaScript strings. -/
def jsIncludes (s sub : String) : Bool :=
  containsChars sub.data s.data

/-- The empty pattern is a prefix of every list. -/
theorem startsWith_nil_left (l : List Char) : startsWith [] l = true := by
  cases l <;> rfl

/-- The empty pattern occurs in every list: the empty query matches
everything. -/
theorem containsChars_nil_left (l : List Char) : containsChars [] l = true := by
  cases l <;> simp [containsChars, startsWith_nil_left]

/-- A non-empty pattern never occurs in the empty list. -/
theorem containsChars_nil_right (c : Char) (cs : List Char) :
    containsChars (c :: cs) [] = false := rfl

/-- `jsIncludes s ""` is always true. -/
theorem jsIncludes_empty (s : String) : jsIncludes s "" = true :=
  containsChars_nil_left s.data

/-- Variant of `jsIncludes_empty` with the lowercased empty query, as it
appears in the screen filters. -/
theorem jsIncludes_toLower_empty (s : String) : jsIncludes s (jsToLower "") = true :=
  containsChars_nil_left s.data

/-- Lowercasing preserves emptiness of a string. -/
theorem jsToLower_eq_empty_iff (s : String) : jsToLower s = "" ↔ s = "" := by
  cases s with
  | mk data =>
    cases data <;> simp [jsToLower, String.ext_iff]

/-- The case-insensitive substring relation the screens implement: the
query, lowercased, occurs in the lowercased field. -/
def ciSubstr (query field : String) : Prop :=
  jsIncludes (jsToLower field) (jsToLower query) = true

instance (query field : String) : Decidable (ciSubstr query field) := by
  unfold ciSubstr; infer_instance

/-- The empty query is a case-insensitive substring of every field. -/
theorem ciSubstr_empty (field : String) : ciSubstr "" field :=
  jsIncludes_empty (jsToLower field)

/-- A non-empty query is never a substring of the empty field. -/
theorem not_ciSubstr_empty_field (q : String) (hq : q ≠ "") : ¬ ciSubstr q "" := by
  intro h
  cases hcase : q.data with
  | nil => exact hq (by cases q; simpa [String.ext_iff] using hcase)
  | cons c cs =>
    unfold ciSubstr jsIncludes jsToLower at h
    rw [hcase] at h
    simp [containsChars, startsWith] at h

/-! ## Entity definitions (`src/models/types.ts`) -/

/-- A recipe book (`interface Book`). -/
structure Book where
  id : String
  title : String
  author : String
  pseudonym : Option String := none
  editor : Option String := none
  year : Option Int := none
  coverImage : Option String := none
  category : Option String := none
  createdAt : String
deriving DecidableEq

/-- A recipe (`interface Recipe`). -/
structure Recipe where
  id : String
  name : String
  bookId : Option String := none
  tags : List String
  notes : String
  isFavorite : Bool
  recipeImage : Option String := none
  createdAt : String
deriving DecidableEq

/-- A tag-based collection (`interface Collection`). -/
structure Collection where
  id : String
  name : String
  tags : List String
  createdAt : String
deriving DecidableEq

/-! ## The provider state (`AppContext.tsx`) -/

/-- The four `useState` slots of `AppProvider`. -/
structure AppState where
  books : List Book
  recipes : List Recipe
  tags : List String
  collections : List Collection
deriving DecidableEq

/-- `INITIAL_BOOKS` of `AppContext.tsx`. -/
def INITIAL_BOOKS : List Book :=
  [ { id := "1", title := "Simplissime", author := "Jean-François Mallet",
      editor := some "Hachette Pratique", year := some 2015,
      category := some "Cuisine rapide", createdAt := "2024-01-15T00:00:00.000Z" },
    { id := "2", title := "La Pâtisserie", author := "Christophe Felder",
      editor := some "La Martinière", year := some 2019,
      category := some "Pâtisserie", createdAt := "2024-02-10T00:00:00.000Z" },
    { id := "3", title := "Veggie", author := "Alice Hart",
      editor := some "Marabout", year := some 2018,
      category := some "Végétarien", createdAt := "2024-03-05T00:00:00.000Z" },
    { id := "4", title := "Le Grand Livre de la Cuisine", author := "Alain Ducasse",
      editor := some "Ducasse Édition", year := some 2020,
      category := some "Gastronomie", createdAt := "2024-04-20T00:00:00.000Z" } ]

/-- `INITIAL_RECIPES` of `AppContext.tsx`. -/
def INITIAL_RECIPES : List Recipe :=
  [ { id := "1", name := "Poulet rôti aux herbes", bookId := some "1",
      tags := ["plat", "viande", "facile"],
      notes := "Excellent ! Ajouter plus de thym la prochaine fois.",
      isFavorite := true, createdAt := "2024-01-20T00:00:00.000Z" },
    { id := "2", name := "Tarte au citron meringuée", bookId := some "2",
      tags := ["dessert", "pâtisserie", "agrumes"],
      notes := "La meringue doit être bien dorée.",
      isFavorite := true, createdAt := "2024-02-15T00:00:00.000Z" },
    { id := "3", name := "Buddha Bowl coloré", bookId := some "3",
      tags := ["plat", "végétarien", "santé"],
      notes := "Parfait pour le déjeuner, très frais.",
      isFavorite := false, createdAt := "2024-03-10T00:00:00.000Z" },
    { id := "4", name := "Risotto aux champignons", bookId := some "4",
      tags := ["plat", "italien", "végétarien"],
      notes := "Remuer constamment pour un résultat crémeux.",
      isFavorite := true, createdAt := "2024-04-25T00:00:00.000Z" },
    { id := "5", name := "Crêpes maison", bookId := some "1",
      tags := ["dessert", "facile", "gourmand"],
      notes := "Recette familiale testée et approuvée.",
      isFavorite := false, createdAt := "2024-05-01T00:00:00.000Z" } ]

/-- `INITIAL_TAGS` of `AppContext.tsx`. -/
def INITIAL_TAGS : List String :=
  ["plat", "dessert", "entrée", "viande", "poisson", "végétarien",
   "pâtisserie", "facile", "rapide", "santé", "gourmand", "italien",
   "français", "agrumes"]

/-- `INITIAL_COLLECTIONS` of `AppContext.tsx`. -/
def INITIAL_COLLECTIONS : List Collection :=
  [ { id := "1", name := "Mes Favoris", tags := ["favoris"],
      createdAt := "2024-01-01T00:00:00.000Z" },
    { id := "2", name := "Repas Rapides", tags := ["facile", "rapide"],
      createdAt := "2024-01-05T00:00:00.000Z" } ]

/-- The state `AppProvider` starts from. -/
def initialState : AppState :=
  { books := INITIAL_BOOKS, recipes := INITIAL_RECIPES,
    tags := INITIAL_TAGS, collections := INITIAL_COLLECTIONS }

/-! ## Store operations (`AppContext.tsx`) -/

/-- `addBook`: `setBooks(prevBooks => [...prevBooks, book])`. -/
def addBook (book : Book) (s : AppState) : AppState :=
  { s with books := s.books ++ [book] }

/-- `updateBook`: `setBooks(prevBooks => prevBooks.map(b => b.id === book.id ? book : b))`. -/
def updateBook (book : Book) (s : AppState) : AppState :=
  { s with books := s.books.map (fun b => if b.id = book.id then book else b) }

/-- `deleteBook(bookId)`.  The handler

* enqueues `setBooks(prevBooks => prevBooks.filter(b => b.id !== bookId))`;
* declares `let detachedCount = 0`;
* enqueues `setRecipes(prevRecipes => prevRecipes.map(r => ...))`, whose
  updater clears `bookId` on every matching recipe and increments the
  captured `detachedCount` once per match;
* executes `return detachedCount`.

React runs the two queued updaters at the next render, after the handler has
returned (see the module docstring), so the recipes component of the
resulting state reflects the updater, while the value produced by the
`return` statement is the value `detachedCount` holds at that moment, namely
its initial value `0` — the increments inside the updater happen only later.
The pair returned here is (state after the next render, value the `Promise`
of `deleteBook` resolves with). -/
def deleteBook (bookId : String) (s : AppState) : AppState × Nat :=
  let books' := s.books.filter (fun b => b.id ≠ bookId)
  let recipes' := s.recipes.map (fun r =>
    if r.bookId = some bookId then { r with bookId := none } else r)
  let detachedCountAtReturn : Nat := 0
  ({ s with books := books', recipes := recipes' }, detachedCountAtReturn)

/-- The total number of increments the `setRecipes` updater of
`deleteBook` performs once React runs it: one per recipe whose `bookId`
matches.  This is the count the documentation of `deleteBook` promises, but
not the value the handler returns. -/
def deleteBookDetachedInUpdater (bookId : String) (s : AppState) : Nat :=
  s.recipes.countP (fun r => r.bookId = some bookId)

/-- `addRecipe`: appends the recipe and registers its unseen tags
(`recipe.tags.filter(tag => !tags.includes(tag))`, appended when non-empty;
appending the empty list is also the identity, so no case split is needed). -/
def addRecipe (recipe : Recipe) (s : AppState) : AppState :=
  let newTags := recipe.tags.filter (fun tag => ¬ tag ∈ s.tags)
  { s with recipes := s.recipes ++ [recipe], tags := s.tags ++ newTags }

/-- `updateRecipe`: replaces the recipe matching on `id` and registers the
unseen tags of the argument, exactly as `addRecipe` does — note that the tag
side effect runs whether or not any recipe matched. -/
def updateRecipe (recipe : Recipe) (s : AppState) : AppState :=
  let newTags := recipe.tags.filter (fun tag => ¬ tag ∈ s.tags)
  { s with
    recipes := s.recipes.map (fun r => if r.id = recipe.id then recipe else r),
    tags := s.tags ++ newTags }

/-- `deleteRecipe`: `setRecipes(prevRecipes => prevRecipes.filter(r => r.id !== recipeId))`. -/
def deleteRecipe (recipeId : String) (s : AppState) : AppState :=
  { s with recipes := s.recipes.filter (fun r => r.id ≠ recipeId) }

/-- `toggleFavorite`: flips `isFavorite` on the recipe matching on `id`. -/
def toggleFavorite (recipeId : String) (s : AppState) : AppState :=
  { s with recipes := s.recipes.map (fun r =>
      if r.id = recipeId then { r with isFavorite := !r.isFavorite } else r) }

/-- `addTag`: appends the tag when it is not already registered. -/
def addTag (tag : String) (s : AppState) : AppState :=
  if tag ∈ s.tags then s else { s with tags := s.tags ++ [tag] }

/-- `addCollection`: `setCollections(prev => [...prev, collection])`. -/
def addCollection (collection : Collection) (s : AppState) : AppState :=
  { s with collections := s.collections ++ [collection] }

/-- `updateCollection`: replaces the collection matching on `id`. -/
def updateCollection (collection : Collection) (s : AppState) : AppState :=
  { s with collections := s.collections.map (fun c =>
      if c.id = collection.id then collection else c) }

/-- `deleteCollection`: removes the collection matching on `id`. -/
def deleteCollection (collectionId : String) (s : AppState) : AppState :=
  { s with collections := s.collections.filter (fun c => c.id ≠ collectionId) }

/-! ## Category suggestion (`suggestBookCategory` in `AppContext.tsx`) -/

/-- One entry of the suggestion list (`interface CategorySuggestion`); the
confidence is in hundredths of the floating-point literal of the source. -/
structure CategorySuggestion where
  category : String
  confidence : Nat
deriving DecidableEq

/-- Stable insertion of one element into a list already sorted by descending
confidence: the element goes before the first strictly smaller confidence,
i.e. after every element with greater or equal confidence that was already
there. -/
def insertDesc (x : CategorySuggestion) : List CategorySuggestion → List CategorySuggestion
  | [] => [x]
  | y :: ys => if y.confidence ≥ x.confidence then y :: insertDesc x ys else x :: y :: ys

/-- Model of `suggestions.sort((a, b) => b.confidence - a.confidence)`:
a stable sort (ECMAScript 2019 requires `Array.prototype.sort` to be
stable) by descending confidence. -/
def sortByConfidenceDesc (l : List CategorySuggestion) : List CategorySuggestion :=
  l.foldr insertDesc []

/-- `suggestBookCategory(title, author, pseudonym?)`: the baseline list with
slot 0 possibly overridden by the first matching keyword rule on the
lowercased title, sorted by descending confidence.  `author` and `pseudonym`
are accepted but never read. -/
def suggestBookCategory (title : String) (_author : String)
    (_pseudonym : Option String) : List CategorySuggestion :=
  let suggestions : List CategorySuggestion :=
    [ { category := "Cuisine générale", confidence := 70 },
      { category := "Pâtisserie", confidence := 50 },
      { category := "Gastronomie", confidence := 40 } ]
  let lowerTitle := jsToLower title
  let suggestions :=
    if jsIncludes lowerTitle "pâtisserie" || jsIncludes lowerTitle "dessert"
        || jsIncludes lowerTitle "gâteau" then
      suggestions.set 0 { category := "Pâtisserie", confidence := 90 }
    else if jsIncludes lowerTitle "végé" || jsIncludes lowerTitle "vegan" then
      suggestions.set 0 { category := "Végétarien", confidence := 90 }
    else if jsIncludes lowerTitle "rapide" || jsIncludes lowerTitle "simple" then
      suggestions.set 0 { category := "Cuisine rapide", confidence := 90 }
    else suggestions
  sortByConfidenceDesc suggestions

/-! ## Screen query helpers -/

namespace BooksScreen

/-- The truthiness-guarded test JavaScript performs on an optional string
field: `field && field.toLowerCase().includes(searchQuery.toLowerCase())` —
a missing or empty string is falsy and the whole conjunction is falsy. -/
def optFieldMatches (searchQuery : String) (field : Option String) : Bool :=
  match field with
  | some v => if v = "" then false else jsIncludes (jsToLower v) (jsToLower searchQuery)
  | none => false

/-- The predicate of `filteredBooks` in `BooksScreen` (`src/unnamed/part_004`,
lines 49–54).  The two optional fields are guarded by JavaScript truthiness
(`book.pseudonym && ...`): a missing or empty string is falsy and the
disjunct is skipped. -/
def bookMatches (searchQuery : String) (book : Book) : Bool :=
  jsIncludes (jsToLower book.title) (jsToLower searchQuery) ||
  jsIncludes (jsToLower book.author) (jsToLower searchQuery) ||
  optFieldMatches searchQuery book.pseudonym ||
  optFieldMatches searchQuery book.category

/-- `filteredBooks = books.filter(book => ...)`. -/
def filteredBooks (searchQuery : String) (books : List Book) : List Book :=
  books.filter (bookMatches searchQuery)

end BooksScreen

namespace RecipesScreen

/-- `matchesSearch` inside `filteredRecipes` of `RecipesScreen.tsx`:
the query occurs (case-insensitively) in the name or in some tag. -/
def matchesSearch (searchQuery : String) (recipe : Recipe) : Bool :=
  jsIncludes (jsToLower recipe.name) (jsToLower searchQuery) ||
  recipe.tags.any (fun tag => jsIncludes (jsToLower tag) (jsToLower searchQuery))

/-- `matchesFavorites`: `!showFavoritesOnly || recipe.isFavorite`. -/
def matchesFavorites (showFavoritesOnly : Bool) (recipe : Recipe) : Bool :=
  !showFavoritesOnly || recipe.isFavorite

/-- `filteredRecipes = recipes.filter(recipe => matchesSearch && matchesFavorites)`. -/
def filteredRecipes (searchQuery : String) (showFavoritesOnly : Bool)
    (recipes : List Recipe) : List Recipe :=
  recipes.filter (fun recipe =>
    matchesSearch searchQuery recipe && matchesFavorites showFavoritesOnly recipe)

end RecipesScreen

namespace CollectionDetailScreen

/-- `filteredRecipes` of `CollectionDetailScreen.tsx` (lines 58–60):
`recipes.filter(recipe => recipe.tags.some(tag => collection.tags.includes(tag)))`. -/
def filteredRecipes (collection : Collection) (recipes : List Recipe) : List Recipe :=
  recipes.filter (fun recipe => recipe.tags.any (fun tag => collection.tags.contains tag))

end CollectionDetailScreen

/-! ## Sequences of add operations (for the uniqueness property) -/

/-- One add operation of the store. -/
inductive AddOp where
  | book (b : Book)
  | recipe (r : Recipe)
  | coll (c : Collection)

/-- Run one add operation. -/
def applyAdd (s : AppState) : AddOp → AppState
  | .book b => addBook b s
  | .recipe r => addRecipe r s
  | .coll c => addCollection c s

/-- Run a sequence of add operations from left to right. -/
def applyAdds (s : AppState) (ops : List AddOp) : AppState :=
  ops.foldl applyAdd s

/-- Kind-wise id uniqueness: no two distinct records of the same entity kind
share an id. -/
def IdsUnique (s : AppState) : Prop :=
  (s.books.map Book.id).Nodup ∧ (s.recipes.map Recipe.id).Nodup ∧
    (s.collections.map Collection.id).Nodup

instance (s : AppState) : Decidable (IdsUnique s) := by
  unfold IdsUnique; infer_instance

/-- The id the operation adds is fresh for the same-kind records of `s`. -/
def FreshFor (s : AppState) : AddOp → Prop
  | .book b => ∀ b2 ∈ s.books, b2.id ≠ b.id
  | .recipe r => ∀ r2 ∈ s.recipes, r2.id ≠ r.id
  | .coll c => ∀ c2 ∈ s.collections, c2.id ≠ c.id

instance (s : AppState) (op : AddOp) : Decidable (FreshFor s op) := by
  cases op <;> (unfold FreshFor; infer_instance)

/-- Every add of the sequence carries an id that is fresh at the moment it
runs (fresh for the initial records of its kind and for the earlier adds). -/
def FreshAdds (s : AppState) : List AddOp → Prop
  | [] => True
  | op :: rest => FreshFor s op ∧ FreshAdds (applyAdd s op) rest

instance (s : AppState) (ops : List AddOp) : Decidable (FreshAdds s ops) := by
  induction ops generalizing s with
  | nil => exact .isTrue trivial
  | cons op rest ih =>
    have : Decidable (FreshFor s op ∧ FreshAdds (applyAdd s op) rest) :=
      @instDecidableAnd _ _ _ (ih (applyAdd s op))
    exact this

/-! ## Shared helper lemmas -/

/-- A map whose function fixes every member of the list is the identity. -/
theorem map_eq_self_of {α : Type} (l : List α) (f : α → α)
    (h : ∀ a ∈ l, f a = a) : l.map f = l := by
  induction l with
  | nil => rfl
  | cons a t ih =>
    simp only [List.map_cons, h a (by simp)]
    rw [ih (fun x hx => h x (by simp [hx]))]

/-- A filter whose predicate accepts every member of the list is the
identity. -/
theorem filter_eq_self_of {α : Type} (l : List α) (p : α → Bool)
    (h : ∀ a ∈ l, p a = true) : l.filter p = l := by
  induction l with
  | nil => rfl
  | cons a t ih =>
    have ha := h a (by simp)
    have ht := ih (fun x hx => h x (by simp [hx]))
    simp [List.filter_cons, ha, ht]

/-- `Forall₂` between a list and its image under a map reduces to a
pointwise condition. -/
theorem forall₂_map_self {α β : Type} (l : List α) (f : α → β)
    (R : α → β → Prop) (h : ∀ a ∈ l, R a (f a)) :
    List.Forall₂ R l (l.map f) := by
  induction l with
  | nil => exact List.Forall₂.nil
  | cons a t ih =>
    exact List.Forall₂.cons (h a (by simp)) (ih (fun x hx => h x (by simp [hx])))

/-! ## Claims -/

/-- C3: a recipe is in the computed membership of a collection exactly when
it is one of the current recipes and its tag list shares at least one tag
with the collection (OR semantics); in particular, for `r1` tagged `a`,
`r2` tagged `b`, `r3` tagged `a` and `b` and a collection on `a`, `b`, the
membership is exactly `r1`, `r2`, `r3`. -/
theorem collection_membership_or_semantics :
    (∀ (collection : Collection) (recipes : List Recipe) (r : Recipe),
      r ∈ CollectionDetailScreen.filteredRecipes collection recipes ↔
        r ∈ recipes ∧ ∃ t, t ∈ r.tags ∧ t ∈ collection.tags) ∧
    (CollectionDetailScreen.filteredRecipes
        { id := "C", name := "C", tags := ["a", "b"], createdAt := "" }
        [ { id := "r1", name := "r1", tags := ["a"], notes := "", isFavorite := false, createdAt := "" },
          { id := "r2", name := "r2", tags := ["b"], notes := "", isFavorite := false, createdAt := "" },
          { id := "r3", name := "r3", tags := ["a", "b"], notes := "", isFavorite := false, createdAt := "" } ] =
      [ { id := "r1", name := "r1", tags := ["a"], notes := "", isFavorite := false, createdAt := "" },
        { id := "r2", name := "r2", tags := ["b"], notes := "", isFavorite := false, createdAt := "" },
        { id := "r3", name := "r3", tags := ["a", "b"], notes := "", isFavorite := false, createdAt := "" } ]) := by
  constructor
  · intro collection recipes r
    simp [CollectionDetailScreen.filteredRecipes, List.mem_filter, List.any_eq_true,
      List.elem_iff]
  · decide

/-- Witness for C3 at a concrete input: the recipe tagged `a` belongs to the
computed membership of the collection on `a`, `b`. -/
theorem collection_membership_or_semantics_witness :
    { id := "r1", name := "r1", tags := ["a"], notes := "", isFavorite := false, createdAt := "" } ∈
      CollectionDetailScreen.filteredRecipes
        { id := "C", name := "C", tags := ["a", "b"], createdAt := "" }
        [ { id := "r1", name := "r1", tags := ["a"], notes := "", isFavorite := false, createdAt := "" } ] :=
  (collection_membership_or_semantics.1 _ _ _).mpr
    ⟨by simp, "a", by simp, by simp⟩

/-- C4: the tag registry after `addRecipe` or `updateRecipe` contains every
previously registered tag and every tag of the recipe argument. -/
theorem tag_registry_monotone :
    ∀ (recipe : Recipe) (s : AppState),
      (∀ t ∈ s.tags, t ∈ (addRecipe recipe s).tags) ∧
      (∀ t ∈ recipe.tags, t ∈ (addRecipe recipe s).tags) ∧
      (∀ t ∈ s.tags, t ∈ (updateRecipe recipe s).tags) ∧
      (∀ t ∈ recipe.tags, t ∈ (updateRecipe recipe s).tags) := by
  intro recipe s
  have hold : ∀ t ∈ s.tags,
      t ∈ s.tags ++ recipe.tags.filter (fun tag => ¬ tag ∈ s.tags) := by
    intro t ht
    exact List.mem_append_left _ ht
  have hnew : ∀ t ∈ recipe.tags,
      t ∈ s.tags ++ recipe.tags.filter (fun tag => ¬ tag ∈ s.tags) := by
    intro t ht
    by_cases hmem : t ∈ s.tags
    · exact List.mem_append_left _ hmem
    · refine List.mem_append_right _ ?_
      simp [List.mem_filter, ht, hmem]
  exact ⟨hold, hnew, hold, hnew⟩

/-- A recipe carrying a tag unknown to the initial registry, used to
witness the monotonicity theorem. -/
def flambeRecipe : Recipe :=
  { id := "9", name := "Bananes flambées", tags := ["flambé"], notes := "",
    isFavorite := false, createdAt := "" }

/-- Witness for C4: registering a recipe carrying the unseen tag `flambé`
keeps the previously known tag `plat` and registers `flambé`. -/
theorem tag_registry_monotone_witness :
    "plat" ∈ (addRecipe flambeRecipe initialState).tags ∧
    "flambé" ∈ (addRecipe flambeRecipe initialState).tags := by
  constructor
  · exact (tag_registry_monotone flambeRecipe initialState).1 "plat" (by decide)
  · exact (tag_registry_monotone flambeRecipe initialState).2.1 "flambé" (by decide)

/-- C8: toggling the favorite flag of the same id twice restores the whole
state, and a toggle whose id matches no recipe is already a no-op. -/
theorem toggleFavorite_double_restores :
    ∀ (s : AppState) (recipeId : String),
      toggleFavorite recipeId (toggleFavorite recipeId s) = s ∧
      ((∀ r ∈ s.recipes, r.id ≠ recipeId) → toggleFavorite recipeId s = s) := by
  intro s recipeId
  constructor
  · obtain ⟨books, recipes, tags, collections⟩ := s
    simp only [toggleFavorite, List.map_map, AppState.mk.injEq, and_true, true_and]
    apply map_eq_self_of
    intro r _
    obtain ⟨rid, rname, rbook, rtags, rnotes, rfav, rimg, rcreated⟩ := r
    by_cases h : rid = recipeId
    · simp [Function.comp, h, Bool.not_not]
    · simp [Function.comp, h]
  · intro hnone
    obtain ⟨books, recipes, tags, collections⟩ := s
    simp only [toggleFavorite, AppState.mk.injEq, and_true, true_and]
    apply map_eq_self_of
    intro r hr
    simp [hnone r hr]

/-- Witness for C8: a double toggle of recipe `1` restores the initial
state, and toggling the unknown id `zzz` is a no-op. -/
theorem toggleFavorite_double_restores_witness :
    toggleFavorite "1" (toggleFavorite "1" initialState) = initialState ∧
    toggleFavorite "zzz" initialState = initialState :=
  ⟨(toggleFavorite_double_restores initialState "1").1,
   (toggleFavorite_double_restores initialState "zzz").2 (by decide)⟩

/-- C10: `deleteBook` leaves the tag registry and the collections unchanged
and rewrites each recipe in place, preserving every field except possibly
`bookId`; a recipe not referencing the deleted book is entirely unchanged. -/
theorem deleteBook_frame :
    ∀ (bookId : String) (s : AppState),
      (deleteBook bookId s).1.tags = s.tags ∧
      (deleteBook bookId s).1.collections = s.collections ∧
      List.Forall₂ (fun r r2 =>
          r2.id = r.id ∧ r2.name = r.name ∧ r2.tags = r.tags ∧ r2.notes = r.notes ∧
          r2.isFavorite = r.isFavorite ∧ r2.recipeImage = r.recipeImage ∧
          r2.createdAt = r.createdAt ∧ (r.bookId ≠ some bookId → r2 = r))
        s.recipes (deleteBook bookId s).1.recipes := by
  intro bookId s
  refine ⟨rfl, rfl, ?_⟩
  apply forall₂_map_self
  intro r _
  by_cases h : r.bookId = some bookId
  · simp [h]
  · simp [h]

/-- Witness for C10: deleting book `1` from the initial store keeps the tag
registry, the collections, and every non-`bookId` recipe field; the recipe
`2`, which references book `2`, is entirely unchanged. -/
theorem deleteBook_frame_witness :
    (deleteBook "1" initialState).1.tags = initialState.tags ∧
    (deleteBook "1" initialState).1.collections = initialState.collections ∧
    (deleteBook "1" initialState).1.recipes.map Recipe.name =
      initialState.recipes.map Recipe.name := by
  have h := deleteBook_frame "1" initialState
  refine ⟨h.1, h.2.1, ?_⟩
  decide

/-- The list `suggestBookCategory` is specified to produce: the baseline
with slot 0 overridden by the first matching keyword rule of the else-if
chain on the lowercased title. -/
def expectedSuggestions (title : String) : List CategorySuggestion :=
  let lowerTitle := jsToLower title
  if jsIncludes lowerTitle "pâtisserie" || jsIncludes lowerTitle "dessert"
      || jsIncludes lowerTitle "gâteau" then
    [ { category := "Pâtisserie", confidence := 90 },
      { category := "Pâtisserie", confidence := 50 },
      { category := "Gastronomie", confidence := 40 } ]
  else if jsIncludes lowerTitle "végé" || jsIncludes lowerTitle "vegan" then
    [ { category := "Végétarien", confidence := 90 },
      { category := "Pâtisserie", confidence := 50 },
      { category := "Gastronomie", confidence := 40 } ]
  else if jsIncludes lowerTitle "rapide" || jsIncludes lowerTitle "simple" then
    [ { category := "Cuisine rapide", confidence := 90 },
      { category := "Pâtisserie", confidence := 50 },
      { category := "Gastronomie", confidence := 40 } ]
  else
    [ { category := "Cuisine générale", confidence := 70 },
      { category := "Pâtisserie", confidence := 50 },
      { category := "Gastronomie", confidence := 40 } ]

/-- C5: for every title, author and optional pseudonym, the suggestion list
is the baseline with slot 0 overridden by the first matching keyword rule
(at most one override, first match wins), has three entries, and is sorted
by descending confidence; a plain title yields the baseline unchanged and a
pâtisserie title yields a list headed by `Pâtisserie` at confidence 0.90. -/
theorem suggestBookCategory_spec :
    (∀ (title author : String) (pseudonym : Option String),
      suggestBookCategory title author pseudonym = expectedSuggestions title ∧
      (suggestBookCategory title author pseudonym).length = 3 ∧
      List.Chain' (fun a b => b.confidence ≤ a.confidence)
        (suggestBookCategory title author pseudonym)) ∧
    suggestBookCategory "Plain Book" "X" none =
      [ { category := "Cuisine générale", confidence := 70 },
        { category := "Pâtisserie", confidence := 50 },
        { category := "Gastronomie", confidence := 40 } ] ∧
    (suggestBookCategory "La Pâtisserie Moderne" "X" none).head? =
      some { category := "Pâtisserie", confidence := 90 } := by
  refine ⟨?_, by decide, by decide⟩
  intro title author pseudonym
  have h : suggestBookCategory title author pseudonym = expectedSuggestions title := by
    unfold suggestBookCategory expectedSuggestions
    dsimp only
    split
    · rfl
    · split
      · rfl
      · split <;> rfl
  refine ⟨h, ?_, ?_⟩ <;> rw [h] <;> unfold expectedSuggestions <;> dsimp only
  · split
    · rfl
    · split
      · rfl
      · split <;> rfl
  · split
    · simp [List.chain'_cons]
    · split
      · simp [List.chain'_cons]
      · split <;> simp [List.chain'_cons]

/-- Witness for C5: the theorem applied to the book `Veggie` yields the
vegetarian override in front. -/
theorem suggestBookCategory_spec_witness :
    suggestBookCategory "Veggie" "Alice Hart" none = expectedSuggestions "Veggie" ∧
    (suggestBookCategory "Veggie" "Alice Hart" none).length = 3 :=
  ⟨(suggestBookCategory_spec.1 "Veggie" "Alice Hart" none).1,
   (suggestBookCategory_spec.1 "Veggie" "Alice Hart" none).2.1⟩

/-- Correspondence between the truthiness-guarded disjunct of
`BooksScreen.bookMatches` on an optional field and the specification
phrase, for a non-empty query. -/
theorem optTruthyMatch_iff (q : String) (hq : q ≠ "") (o : Option String) :
    BooksScreen.optFieldMatches q o = true ↔ ∃ v, o = some v ∧ ciSubstr q v := by
  unfold BooksScreen.optFieldMatches
  cases o with
  | none => simp
  | some v =>
    by_cases hv : v = ""
    · subst hv
      simpa using fun h => absurd h (not_ciSubstr_empty_field q hq)
    · simp [hv, ciSubstr]

/-- C6: a book passes the books-screen filter exactly when the query is a
case-insensitive substring of its title, its author, its pseudonym or its
category, absent optional fields not matching; the empty query keeps every
book, and a book categorised `Pâtisserie` matches the query `PÂTISSERIE`. -/
theorem books_search_spec :
    (∀ (searchQuery : String) (books : List Book) (b : Book),
      b ∈ BooksScreen.filteredBooks searchQuery books ↔
        b ∈ books ∧
          (ciSubstr searchQuery b.title ∨ ciSubstr searchQuery b.author ∨
           (∃ p, b.pseudonym = some p ∧ ciSubstr searchQuery p) ∨
           (∃ c, b.category = some c ∧ ciSubstr searchQuery c))) ∧
    (∀ (books : List Book) (b : Book), b ∈ books →
      b ∈ BooksScreen.filteredBooks "" books) ∧
    BooksScreen.filteredBooks "PÂTISSERIE" INITIAL_BOOKS =
      [ { id := "2", title := "La Pâtisserie", author := "Christophe Felder",
          editor := some "La Martinière", year := some 2019,
          category := some "Pâtisserie", createdAt := "2024-02-10T00:00:00.000Z" } ] := by
  have hmatch : ∀ (q : String) (b : Book),
      BooksScreen.bookMatches q b = true ↔
        (ciSubstr q b.title ∨ ciSubstr q b.author ∨
         (∃ p, b.pseudonym = some p ∧ ciSubstr q p) ∨
         (∃ c, b.category = some c ∧ ciSubstr q c)) := by
    intro q b
    by_cases hq : q = ""
    · subst hq
      simp [BooksScreen.bookMatches, jsIncludes_toLower_empty, ciSubstr_empty]
    · simp [BooksScreen.bookMatches, Bool.or_eq_true, optTruthyMatch_iff q hq, ciSubstr,
        or_assoc]
  refine ⟨?_, ?_, by decide⟩
  · intro q books b
    rw [BooksScreen.filteredBooks, List.mem_filter, hmatch]
  · intro books b hb
    rw [BooksScreen.filteredBooks, List.mem_filter]
    exact ⟨hb, by simp [BooksScreen.bookMatches, jsIncludes_toLower_empty]⟩

/-- Witness for C6: the empty query keeps the first initial book, obtained
by instantiating the theorem. -/
theorem books_search_spec_witness :
    { id := "1", title := "Simplissime", author := "Jean-François Mallet",
      editor := some "Hachette Pratique", year := some 2015,
      category := some "Cuisine rapide",
      createdAt := "2024-01-15T00:00:00.000Z" } ∈
      BooksScreen.filteredBooks "" INITIAL_BOOKS :=
  books_search_spec.2.1 INITIAL_BOOKS _ (by decide)

/-- C7: a recipe passes the recipes-screen filter exactly when the query is
a case-insensitive substring of its name or of one of its tags, and, when
the favorites-only flag is set, the recipe is a favorite — the two filters
compose by conjunction. -/
theorem recipes_search_favorites_spec :
    ∀ (searchQuery : String) (showFavoritesOnly : Bool)
      (recipes : List Recipe) (r : Recipe),
      r ∈ RecipesScreen.filteredRecipes searchQuery showFavoritesOnly recipes ↔
        r ∈ recipes ∧
          (ciSubstr searchQuery r.name ∨ ∃ t, t ∈ r.tags ∧ ciSubstr searchQuery t) ∧
          (showFavoritesOnly = false ∨ r.isFavorite = true) := by
  intro q fav recipes r
  rw [RecipesScreen.filteredRecipes, List.mem_filter]
  simp [RecipesScreen.matchesSearch, RecipesScreen.matchesFavorites,
    List.any_eq_true, ciSubstr, Bool.or_eq_true, Bool.and_eq_true, and_assoc]

/-- Witness for C7: with the favorites filter on, the favorite recipe
`Poulet rôti aux herbes` matches the query `POULET`. -/
theorem recipes_search_favorites_spec_witness :
    { id := "1", name := "Poulet rôti aux herbes", bookId := some "1",
      tags := ["plat", "viande", "facile"],
      notes := "Excellent ! Ajouter plus de thym la prochaine fois.",
      isFavorite := true, createdAt := "2024-01-20T00:00:00.000Z" } ∈
      RecipesScreen.filteredRecipes "POULET" true INITIAL_RECIPES :=
  (recipes_search_favorites_spec "POULET" true INITIAL_RECIPES _).mpr
    ⟨by decide, Or.inl (by decide), Or.inr rfl⟩

/-- A recipe whose id matches no stored recipe and whose tag list carries a
tag unknown to the initial registry. -/
def ghostRecipe : Recipe :=
  { id := "ghost", name := "Recette fantôme", tags := ["inédit"], notes := "",
    isFavorite := false, createdAt := "" }

/-- A book whose id matches no stored book. -/
def ghostBook : Book :=
  { id := "b-ghost", title := "Fantôme", author := "Personne", createdAt := "" }

/-- A collection whose id matches no stored collection. -/
def ghostCollection : Collection :=
  { id := "c-ghost", name := "Vide", tags := ["x"], createdAt := "" }

/-- A recipe with a dangling `bookId` (no book `99` exists). -/
def danglingRecipe : Recipe :=
  { id := "d", name := "Recette orpheline", bookId := some "99", tags := [],
    notes := "", isFavorite := false, createdAt := "" }

/-- The initial store extended with a recipe whose `bookId` dangles. -/
def danglingState : AppState :=
  { initialState with recipes := initialState.recipes ++ [danglingRecipe] }

/-- C2 counterexample: two operations on unmatched ids are not no-ops.
`updateRecipe` with the unknown id `ghost` still grows the tag registry
with the unseen tag of its argument, and `deleteBook` with the unknown book
id `99` still detaches a recipe whose `bookId` dangles to `99`. -/
theorem notfound_noop_counterexample :
    ((∀ r ∈ initialState.recipes, r.id ≠ "ghost") ∧
      updateRecipe ghostRecipe initialState ≠ initialState) ∧
    ((∀ b ∈ danglingState.books, b.id ≠ "99") ∧
      (deleteBook "99" danglingState).1 ≠ danglingState) :=
  ⟨⟨by decide, by decide⟩, ⟨by decide, by decide⟩⟩

/-- C2 (amended): on an id matching no record of the targeted kind,
`updateBook`, `deleteRecipe`, `toggleFavorite`, `updateCollection` and
`deleteCollection` leave the whole state unchanged; `updateRecipe` leaves
books, recipes and collections unchanged but still appends the unseen tags
of its argument to the registry; `deleteBook` leaves the state unchanged
provided additionally no recipe dangles to the deleted id, and its returned
count is 0 regardless. -/
theorem notfound_noop_amended :
    ∀ (book : Book) (recipe : Recipe) (collection : Collection)
      (bookId recipeId collectionId : String) (s : AppState),
      ((∀ b ∈ s.books, b.id ≠ book.id) → updateBook book s = s) ∧
      ((∀ r ∈ s.recipes, r.id ≠ recipe.id) →
        (updateRecipe recipe s).recipes = s.recipes ∧
        (updateRecipe recipe s).books = s.books ∧
        (updateRecipe recipe s).collections = s.collections ∧
        (updateRecipe recipe s).tags =
          s.tags ++ recipe.tags.filter (fun tag => ¬ tag ∈ s.tags)) ∧
      ((∀ b ∈ s.books, b.id ≠ bookId) → (∀ r ∈ s.recipes, r.bookId ≠ some bookId) →
        (deleteBook bookId s).1 = s) ∧
      (deleteBook bookId s).2 = 0 ∧
      ((∀ r ∈ s.recipes, r.id ≠ recipeId) → deleteRecipe recipeId s = s) ∧
      ((∀ r ∈ s.recipes, r.id ≠ recipeId) → toggleFavorite recipeId s = s) ∧
      ((∀ c ∈ s.collections, c.id ≠ collection.id) → updateCollection collection s = s) ∧
      ((∀ c ∈ s.collections, c.id ≠ collectionId) → deleteCollection collectionId s = s) := by
  intro book recipe collection bookId recipeId collectionId s
  obtain ⟨books, recipes, tags, collections⟩ := s
  refine ⟨?_, ?_, ?_, rfl, ?_, ?_, ?_, ?_⟩
  · intro h
    simp only [updateBook, AppState.mk.injEq, and_true, true_and]
    exact map_eq_self_of _ _ (fun b hb => if_neg (h b hb))
  · intro h
    exact ⟨map_eq_self_of _ _ (fun r hr => if_neg (h r hr)), rfl, rfl, rfl⟩
  · intro hb hr
    have h1 : books.filter (fun b => b.id ≠ bookId) = books :=
      filter_eq_self_of _ _ (fun b hbm => by simp [hb b hbm])
    have h2 : recipes.map (fun r =>
        if r.bookId = some bookId then { r with bookId := none } else r) = recipes :=
      map_eq_self_of _ _ (fun r hrm => if_neg (hr r hrm))
    show ({ books := books.filter (fun b => b.id ≠ bookId),
            recipes := recipes.map (fun r =>
              if r.bookId = some bookId then { r with bookId := none } else r),
            tags := tags, collections := collections : AppState}) = _
    rw [h1, h2]
  · intro h
    simp only [deleteRecipe, AppState.mk.injEq, and_true, true_and]
    exact filter_eq_self_of _ _ (fun r hr => by simp [h r hr])
  · intro h
    simp only [toggleFavorite, AppState.mk.injEq, and_true, true_and]
    exact map_eq_self_of _ _ (fun r hr => if_neg (h r hr))
  · intro h
    simp only [updateCollection, AppState.mk.injEq, and_true, true_and]
    exact map_eq_self_of _ _ (fun c hc => if_neg (h c hc))
  · intro h
    simp only [deleteCollection, AppState.mk.injEq, and_true, true_and]
    exact filter_eq_self_of _ _ (fun c hc => by simp [h c hc])

/-- Witness for C2 (amended), at the initial store and unmatched ids. -/
theorem notfound_noop_amended_witness :
    updateBook ghostBook initialState = initialState ∧
    toggleFavorite "ghost" initialState = initialState ∧
    (updateRecipe ghostRecipe initialState).recipes = initialState.recipes := by
  have h := notfound_noop_amended ghostBook ghostRecipe ghostCollection
    "99" "ghost" "42" initialState
  exact ⟨h.1 (by decide), h.2.2.2.2.2.1 (by decide), (h.2.1 (by decide)).1⟩

/-- A book whose id duplicates the id of the first initial book. -/
def dupBook : Book :=
  { id := "1", title := "Copie de Simplissime", author := "Autre Auteur",
    createdAt := "" }

/-- C9 counterexample: the store never checks the supplied id, so adding a
book that reuses the existing id `1` leaves two distinct books sharing an
id — uniqueness does not hold after arbitrary add operations. -/
theorem add_id_uniqueness_counterexample :
    ¬ IdsUnique (applyAdds initialState [AddOp.book dupBook]) := by decide

/-- One add of a fresh id preserves kind-wise id uniqueness. -/
theorem idsUnique_applyAdd {s : AppState} {op : AddOp}
    (h : IdsUnique s) (hf : FreshFor s op) : IdsUnique (applyAdd s op) := by
  obtain ⟨hb, hr, hc⟩ := h
  cases op with
  | book b =>
    refine ⟨?_, hr, hc⟩
    have hnotin : b.id ∉ s.books.map Book.id := by
      simp only [List.mem_map]
      rintro ⟨b2, hb2, heq⟩
      exact hf b2 hb2 heq
    simpa [applyAdd, addBook, List.nodup_append] using ⟨hb, by simpa using hnotin⟩
  | recipe r =>
    refine ⟨hb, ?_, hc⟩
    have hnotin : r.id ∉ s.recipes.map Recipe.id := by
      simp only [List.mem_map]
      rintro ⟨r2, hr2, heq⟩
      exact hf r2 hr2 heq
    simpa [applyAdd, addRecipe, List.nodup_append] using ⟨hr, by simpa using hnotin⟩
  | coll c =>
    refine ⟨hb, hr, ?_⟩
    have hnotin : c.id ∉ s.collections.map Collection.id := by
      simp only [List.mem_map]
      rintro ⟨c2, hc2, heq⟩
      exact hf c2 hc2 heq
    simpa [applyAdd, addCollection, List.nodup_append] using ⟨hc, by simpa using hnotin⟩

/-- A sequence of adds with ids fresh at each step preserves kind-wise id
uniqueness. -/
theorem idsUnique_applyAdds (ops : List AddOp) :
    ∀ (s : AppState), IdsUnique s → FreshAdds s ops →
      IdsUnique (applyAdds s ops) := by
  induction ops with
  | nil => exact fun s h _ => h
  | cons op rest ih =>
    intro s h hf
    exact ih (applyAdd s op) (idsUnique_applyAdd h hf.1) hf.2

/-- C9 (amended): after any sequence of add operations from the initial
store in which every supplied id is fresh for its kind at the moment of its
add, no two distinct records of the same kind share an id.  (Without the
freshness condition the property fails, see the counterexample: the store
itself never validates ids — the spec assigns that duty to the caller.) -/
theorem add_id_uniqueness_of_fresh :
    ∀ ops : List AddOp, FreshAdds initialState ops →
      IdsUnique (applyAdds initialState ops) :=
  fun ops hf => idsUnique_applyAdds ops initialState (by decide) hf

/-- A book with an id unused by the initial store. -/
def freshBook : Book :=
  { id := "5", title := "Nouveau Livre", author := "Autre Auteur",
    createdAt := "" }

/-- Witness for C9 (amended): adding a book under the fresh id `5` keeps
ids unique. -/
theorem add_id_uniqueness_of_fresh_witness :
    IdsUnique (applyAdds initialState [AddOp.book freshBook]) :=
  add_id_uniqueness_of_fresh [AddOp.book freshBook] (by decide)

/-- C1: at the initial store, recipes `1` and `5` reference book `1`, so
deleting book `1` must return 2 by the specification.  The state effects do
happen — the book disappears and afterwards no recipe references it — but
the handler returns the value `detachedCount` holds at its `return`
statement, before React has run the queued `setRecipes` updater that
performs the increments: the promise resolves with 0, contradicting the
documented contract (`retourne le nombre de recettes détachées`) and the
caller of `BookDetailScreen.handleDelete`, which alerts only when the
returned count is positive. -/
theorem deleteBook_return_count_bug :
    deleteBookDetachedInUpdater "1" initialState = 2 ∧
    (deleteBook "1" initialState).2 = 0 ∧
    (deleteBook "1" initialState).2 ≠ deleteBookDetachedInUpdater "1" initialState ∧
    (∀ r ∈ (deleteBook "1" initialState).1.recipes, r.bookId ≠ some "1") ∧
    (∀ b ∈ (deleteBook "1" initialState).1.books, b.id ≠ "1") :=
  ⟨by decide, rfl, by decide, by decide, by decide⟩
